import Mathlib

/-!
Verification of the scene-framing / camera-authority subsystem and the
animation playback state machine of a glTF viewer (a single React
component file).  The definitions below are a shallow embedding of the
source: JavaScript numbers are modelled as real numbers, JavaScript
objects as structures, `null`/missing values as `Option`, and the React
state updates triggered by the handlers as explicit state-passing
functions.
-/

namespace GltfViewer

noncomputable section

/-- A 3-component vector, as used for positions, Euler angles (degrees)
and look-at targets throughout the source. -/
structure Vec3 where
  x : ℝ
  y : ℝ
  z : ℝ

/-- Componentwise addition (three.js `Vector3.add`). -/
def vadd (a b : Vec3) : Vec3 := ⟨a.x + b.x, a.y + b.y, a.z + b.z⟩

/-- `Math.round(val * 100) / 100`, the 2-decimal rounding used by
`updateCamera` and `resetCameraToViewTarget`.  JavaScript `Math.round`
rounds half-up, which is exactly Mathlib's `round` (`⌊x + 1/2⌋`). -/
def round2 (v : ℝ) : ℝ := (round (v * 100) : ℤ) / 100

/-- The rounding applied by `updateCamera` to a 3-vector via `.map`. -/
def round2Vec (v : Vec3) : Vec3 := ⟨round2 v.x, round2 v.y, round2 v.z⟩

/-- `THREE.MathUtils.radToDeg`. -/
def radToDeg (x : ℝ) : ℝ := x * 180 / Real.pi

/-- `THREE.MathUtils.degToRad`. -/
def degToRad (x : ℝ) : ℝ := x * Real.pi / 180

/-- The `sceneSettings.camera` record of the `ModelScene` component
(source lines 581-591): stored camera pose. -/
structure CameraState where
  position : Vec3
  rotation : Vec3
  target : Vec3
  fov : ℝ
  near : ℝ
  far : ℝ
  zoom : ℝ

/-- The `updates` object passed to `updateCamera`.  At every call site in
the source the object carries only (a subset of) the keys `position`,
`rotation` and `target`; a missing key is `none`. -/
structure CameraUpdates where
  position : Option Vec3
  rotation : Option Vec3
  target : Option Vec3

/-- The precision processing inside `updateCamera` (source lines
690-705): rotation and position updates are rounded to 2 decimal places,
the target is passed through untouched. -/
def processUpdates (u : CameraUpdates) : CameraUpdates :=
  { position := u.position.map round2Vec
    rotation := u.rotation.map round2Vec
    target := u.target }

/-- `updateCamera` (source lines 688-715): spread the processed updates
over the previous camera record; keys that are absent from the update
keep their previous values. -/
def updateCamera (u : CameraUpdates) (c : CameraState) : CameraState :=
  let p := processUpdates u
  { c with
    position := p.position.getD c.position
    rotation := p.rotation.getD c.rotation
    target := p.target.getD c.target }

/-- The part of the `ModelScene` component state that the camera
authority logic reads and writes: the stored pose and the
`orbitControlsEnabled` flag (`true` = Orbit authority, `false` = Manual
authority). -/
structure SceneState where
  orbitControlsEnabled : Bool
  camera : CameraState

/-- The initial `sceneSettings.camera` value (source lines 581-591). -/
def initialCamera : CameraState :=
  { position := ⟨-3.5, 3, 3.5⟩
    rotation := ⟨0, 0, 0⟩
    target := ⟨0, 0, 0⟩
    fov := 50
    near := 0.1
    far := 1000
    zoom := 1 }

/-- Initial component state: orbit controls enabled (source line 647). -/
def initialSceneState : SceneState :=
  { orbitControlsEnabled := true, camera := initialCamera }

/-- `handlePositionChange` (source lines 839-851): disables the orbit
controls and updates only the stored camera position. -/
def handlePositionChange (v : Vec3) (s : SceneState) : SceneState :=
  { orbitControlsEnabled := false
    camera := updateCamera ⟨some v, none, none⟩ s.camera }

/-- `handleCameraRotation` (source lines 784-821): disables the orbit
controls and updates only the stored camera rotation. -/
def handleCameraRotation (v : Vec3) (s : SceneState) : SceneState :=
  { orbitControlsEnabled := false
    camera := updateCamera ⟨none, some v, none⟩ s.camera }

/-- `handleTargetChange` (source lines 824-836): disables the orbit
controls and updates only the stored camera target. -/
def handleTargetChange (v : Vec3) (s : SceneState) : SceneState :=
  { orbitControlsEnabled := false
    camera := updateCamera ⟨none, none, some v⟩ s.camera }

/-- `toggleOrbitControls` (source lines 854-856). -/
def toggleOrbitControls (s : SceneState) : SceneState :=
  { s with orbitControlsEnabled := !s.orbitControlsEnabled }

/-- The orbit-controls `change` handler `handleChange` (source lines
884-920).  It receives the live camera position, the live camera Euler
rotation in radians and the controls target.  The listener is only
attached while `orbitControlsEnabled` is `true` (the effect at lines
859-928 returns before `addEventListener` otherwise), and the handler
itself additionally returns early when the flag is `false`; both gates
are modelled by the single `if`.  When it fires it writes position and
target verbatim and rotation converted to degrees, with no rounding. -/
def handleChange (camPos camRotRad tgt : Vec3) (s : SceneState) : SceneState :=
  if s.orbitControlsEnabled then
    { s with
      camera :=
        { s.camera with
          position := camPos
          target := tgt
          rotation := ⟨radToDeg camRotRad.x, radToDeg camRotRad.y, radToDeg camRotRad.z⟩ } }
  else s

/-- `resetCameraToViewTarget` (source lines 990-1037).  The look-at
rotation produced by the renderer's `camera.lookAt` is an input here
(the renderer owns that computation); the function recomputes a
position from the target and distance, writes it with a zero default
rotation, then writes the look-at rotation, and finally re-enables the
orbit controls. -/
def resetCameraToViewTarget (tgt : Vec3) (currentDistance : ℝ) (lookAtRotationDeg : Vec3)
    (s : SceneState) : SceneState :=
  let distance := if 0 < currentDistance then currentDistance else 10
  let position : Vec3 :=
    ⟨round2 (tgt.x + 0), round2 (tgt.y + distance * 0.5), round2 (tgt.z + distance)⟩
  let s1 : SceneState :=
    { s with camera := updateCamera ⟨some position, some ⟨0, 0, 0⟩, none⟩ s.camera }
  let s2 : SceneState :=
    { s1 with camera := updateCamera ⟨none, some lookAtRotationDeg, none⟩ s1.camera }
  { s2 with orbitControlsEnabled := true }

/-- The discrete user-facing events that drive the camera authority
logic. -/
inductive SceneEvent where
  | manualPosition (v : Vec3)
  | manualRotation (v : Vec3)
  | manualTarget (v : Vec3)
  | orbitChange (camPos camRotRad tgt : Vec3)
  | toggle
  | resetView (tgt : Vec3) (dist : ℝ) (lookRot : Vec3)

/-- One step of the camera authority state machine: dispatch an event to
the corresponding source handler. -/
def sceneStep (s : SceneState) : SceneEvent → SceneState
  | .manualPosition v => handlePositionChange v s
  | .manualRotation v => handleCameraRotation v s
  | .manualTarget v => handleTargetChange v s
  | .orbitChange p r t => handleChange p r t s
  | .toggle => toggleOrbitControls s
  | .resetView t d r => resetCameraToViewTarget t d r s

/-- Events that are manual camera edits. -/
def isManualEdit : SceneEvent → Bool
  | .manualPosition _ => true
  | .manualRotation _ => true
  | .manualTarget _ => true
  | _ => false

/-- Events that are orbit-drag change events. -/
def isOrbitChange : SceneEvent → Bool
  | .orbitChange _ _ _ => true
  | _ => false

/-- The flags the orbit-controls effect (source lines 859-882) writes
onto the controls object. -/
structure ControlsFlags where
  enablePan : Bool
  enableZoom : Bool
  enableRotate : Bool

/-- The orbit-controls effect's flag assignment: everything off when the
controls are disabled; pan and zoom on and rotate gated by the kiosk
flag when enabled. -/
def applyControlsEffect (enabled kiosk : Bool) : ControlsFlags :=
  if enabled then ⟨true, true, true && !kiosk⟩ else ⟨false, false, false⟩

/-! ### Scene inspection and framing (the `Model` component's load effect) -/

/-- A quaternion, as delivered by `camera.getWorldQuaternion`. -/
structure Quat where
  w : ℝ
  x : ℝ
  y : ℝ
  z : ℝ

/-- The identity quaternion (no rotation). -/
def Quat.identity : Quat := ⟨1, 0, 0, 0⟩

/-- three.js `Vector3.applyQuaternion`: rotate `v` by `q` via
`t = q * v * conj q`, written exactly as the library's expanded
formula. -/
def applyQuaternion (q : Quat) (v : Vec3) : Vec3 :=
  let ix := q.w * v.x + q.y * v.z - q.z * v.y
  let iy := q.w * v.y + q.z * v.x - q.x * v.z
  let iz := q.w * v.z + q.x * v.y - q.y * v.x
  let iw := -q.x * v.x - q.y * v.y - q.z * v.z
  ⟨ix * q.w + iw * -q.x + iy * -q.z - iz * -q.y,
   iy * q.w + iw * -q.y + iz * -q.x - ix * -q.z,
   iz * q.w + iw * -q.z + ix * -q.y - iy * -q.x⟩

/-- An animation clip as exposed by the loader: a name (possibly empty
for unnamed clips) and a duration in seconds. -/
structure Clip where
  name : String
  duration : ℝ

/-- An authored camera node of the loaded asset, after the world
transform has been resolved by the scene graph (`getWorldPosition` /
`getWorldQuaternion`). -/
structure GltfCamera where
  worldPosition : Vec3
  worldQuaternion : Quat
  fov : ℝ
  near : ℝ
  far : ℝ
  zoom : ℝ

/-- The parts of the loaded `gltf` object that the load effect reads:
the authored camera list, the axis-aligned bounding box size and center
of the scene (computed externally by `THREE.Box3`), and the animation
clips. -/
structure Gltf where
  cameras : List GltfCamera
  boundingSize : Vec3
  boundingCenter : Vec3
  animations : List Clip

/-- The camera record of the `sceneSettings` object built by the load
effect.  The authored-camera branch fills every field; the framing
branch only emits `position`, `target` and `fov` (the merge in
`handleModelLoad` then keeps the previous `near`/`far`/`zoom`), hence
the `Option` fields. -/
structure ExtractedCamera where
  position : Vec3
  target : Vec3
  fov : ℝ
  near : Option ℝ
  far : Option ℝ
  zoom : Option ℝ

/-- The authored-camera branch of the load effect (source lines 62-89):
world position, target derived by rotating the forward vector
`(0, 0, -1)` by the world quaternion and adding it to the position, and
`fov`/`near`/`far`/`zoom` copied from the camera node. -/
def authoredCamera (cam : GltfCamera) : ExtractedCamera :=
  let direction := applyQuaternion cam.worldQuaternion ⟨0, 0, -1⟩
  { position := cam.worldPosition
    target := vadd cam.worldPosition direction
    fov := cam.fov
    near := some cam.near
    far := some cam.far
    zoom := some cam.zoom }

/-- The computed camera distance of the no-camera framing branch
(source lines 129-133): `maxDim / (2 * tan((fov * π) / 360)) * 1.2`
with `fov = 50`. -/
def frameDistance (size : Vec3) : ℝ :=
  max (max size.x size.y) size.z / (2 * Real.tan ((50 * Real.pi) / 360)) * 1.2

/-- The no-camera framing branch of the load effect (source lines
122-158): place the camera at elevation 30° (`π/6`) and azimuth 135°
(`3π/4`) at `frameDistance`, looking at the origin, with fov 50. -/
def frameCamera (size : Vec3) : ExtractedCamera :=
  let distance := frameDistance size
  let verticalAngle := Real.pi / 6
  let horizontalAngle := (Real.pi * 3) / 4
  let height := distance * Real.sin verticalAngle
  let radius := distance * Real.cos verticalAngle
  { position := ⟨radius * Real.cos horizontalAngle, height, radius * Real.sin horizontalAngle⟩
    target := ⟨0, 0, 0⟩
    fov := 50
    near := none
    far := none
    zoom := none }

/-- The camera part of the `sceneSettings` produced by the load effect:
the first authored camera takes precedence (`gltf.cameras?.[0]`), and
only when there is none does the bounding-volume framing run. -/
def computeSceneSettings (g : Gltf) : ExtractedCamera :=
  match g.cameras.head? with
  | some cam => authoredCamera cam
  | none => frameCamera g.boundingSize

/-! ### Animation playback (the `Model` component's animation logic) -/

/-- The values observed in the `isPlaying` React state.  It is
documented in the source (line 644) as the strings
`'playing' | 'paused' | 'stopped'`, but the auto-play seeding effect
(line 198) writes the raw boolean `true` into it, so the embedding
carries that value too. -/
inductive JsPlayFlag where
  | strPlaying
  | strPaused
  | strStopped
  | boolTrue
deriving DecidableEq

/-- A three.js `AnimationAction` handle, restricted to the fields this
component exercises: the clip it drives, the playback head `time`, the
`paused` flag, whether the action is activated/running, and the loop
mode (`true` = `LoopRepeat`). -/
structure Action where
  clip : Clip
  time : ℝ
  paused : Bool
  running : Bool
  loop : Bool

/-- `AnimationAction.play()`: activates the action.  It does not touch
`time` and does not clear `paused` (which is why the source clears
`paused` explicitly before playing). -/
def Action.play (a : Action) : Action := { a with running := true }

/-- `AnimationAction.reset()`: clears `paused` and rewinds `time` to
0. -/
def Action.resetHead (a : Action) : Action := { a with paused := false, time := 0 }

/-- `AnimationAction.stop()`: deactivates the action and resets it. -/
def Action.stopRun (a : Action) : Action := Action.resetHead { a with running := false }

/-- `AnimationAction.setLoop(THREE.LoopRepeat)`. -/
def Action.setLoopRepeat (a : Action) : Action := { a with loop := true }

/-- The `actions` dictionary provided by the animation hook: a partial
map from clip name to action. -/
def ActMap := String → Option Action

/-- Replace the entry for clip `n` (mutating one action object of the
dictionary in place, observed at the map level). -/
def setAction (m : ActMap) (n : String) (a : Action) : ActMap :=
  fun k => if k = n then some a else m k

/-- The animation state effect (source lines 211-232): if a current
animation is selected (non-empty string) and its action resolves,
apply the transition selected by `isPlaying`; the stray boolean `true`
value matches none of the three string comparisons and does nothing. -/
def animEffect (cur : String) (flag : JsPlayFlag) (acts : ActMap) : ActMap :=
  if cur = "" then acts
  else
    match acts cur with
    | none => acts
    | some a =>
      match flag with
      | .strPlaying => setAction acts cur (Action.play { a with paused := false })
      | .strPaused => setAction acts cur { a with paused := true }
      | .strStopped => setAction acts cur (Action.resetHead (Action.stopRun a))
      | .boolTrue => acts

/-- The animation playback state of the component. -/
structure AnimState where
  currentAnimation : String
  isPlaying : JsPlayFlag
  actions : ActMap

/-- The animation `select` element's `onChange` (source lines
1672-1688) followed by the animation state effect it triggers: set the
current animation to the chosen value, set `isPlaying` to `'playing'`
(non-empty choice) or `'stopped'` (the "No Animation" empty value), and
let the effect act on the newly selected clip.  No other action of the
dictionary is visited. -/
def selectAnimation (value : String) (st : AnimState) : AnimState :=
  let flag := if value = "" then JsPlayFlag.strStopped else JsPlayFlag.strPlaying
  { currentAnimation := value
    isPlaying := flag
    actions := animEffect value flag st.actions }

/-- The state of the `Model` component relevant to load-time animation
seeding. -/
structure ModelState where
  hasLoaded : Bool
  isVisible : Bool
  isInitialized : Bool
  currentAnimation : String
  isPlaying : JsPlayFlag
  actions : ActMap

/-- The name under which the first clip is selected:
`gltf.animations[0].name || '0'` (source line 196). -/
def firstAnimationName (anims : List Clip) : String :=
  match anims with
  | [] => "0"
  | c :: _ => if c.name = "" then "0" else c.name

/-- The auto-play seeding effect (source lines 192-208): when the asset
has clips and the component is not yet initialized, select the first
clip, write the raw boolean `true` into `isPlaying`, mark the component
initialized, and reset/play/loop the first clip's action directly. -/
def seedAnimations (anims : List Clip) (st : ModelState) : ModelState :=
  if anims.length > 0 && !st.isInitialized then
    let first := firstAnimationName anims
    let acts :=
      match st.actions first with
      | some a => setAction st.actions first (Action.setLoopRepeat (Action.play (Action.resetHead a)))
      | none => st.actions
    { st with
      currentAnimation := first
      isPlaying := .boolTrue
      isInitialized := true
      actions := acts }
  else st

/-- The `modelUrl` change effect (source lines 39-42): a newly loaded
asset URL clears `hasLoaded` and `isVisible` — and nothing else; in
particular `isInitialized` is kept. -/
def resetOnNewModelUrl (st : ModelState) : ModelState :=
  { st with hasLoaded := false, isVisible := false }

/-- The scrub body of `handleProgress` applied to the resolved action
(source lines 296-308): write `duration * progress` into `time`, and if
the action is paused, momentarily play it and re-pause it. -/
def scrubAction (p : ℝ) (a : Action) : Action :=
  let a1 := { a with time := a.clip.duration * p }
  if a1.paused then { Action.play a1 with paused := true } else a1

/-- `handleProgress` (source lines 296-308): a no-op unless a current
animation is selected and its action resolves. -/
def handleProgress (p : ℝ) (cur : String) (acts : ActMap) : ActMap :=
  if cur = "" then acts
  else
    match acts cur with
    | none => acts
    | some a => setAction acts cur (scrubAction p a)

/-- The imperative handle's `getDuration` (source lines 310-319):
returns the resolved active clip's duration, and 0 when no animation is
selected or its action does not resolve. -/
def getDuration (cur : String) (acts : ActMap) : ℝ :=
  if cur = "" then 0
  else
    match acts cur with
    | some a => a.clip.duration
    | none => 0

/-! ### Concrete instances used by witnesses and counterexamples -/

/-- A concrete clip "A" of duration 3. -/
def clipA : Clip := ⟨"A", 3⟩

/-- A concrete clip "B" of duration 4. -/
def clipB : Clip := ⟨"B", 4⟩

/-- Clip A's action, mid-playback: running, unpaused, at time 1.5. -/
def actA : Action := ⟨clipA, 1.5, false, true, true⟩

/-- Clip B's action, idle at time 0. -/
def actB : Action := ⟨clipB, 0, false, false, true⟩

/-- A concrete action dictionary holding clips A and B. -/
def actsAB : ActMap := fun k => if k = "A" then some actA else if k = "B" then some actB else none

/-- A concrete animation state: clip A selected and playing. -/
def animStA : AnimState := ⟨"A", .strPlaying, actsAB⟩

/-- The `Model` component's state before the first seeding: nothing
initialized, no clip selected, initial `isPlaying` value `'playing'`
(source line 644). -/
def modelSt0 : ModelState := ⟨false, false, false, "", .strPlaying, actsAB⟩

/-- A concrete asset with no authored camera and a 2×2×2 bounding box
(the unit cube of half-extents 1 centered at the origin). -/
def gltfUnitCube : Gltf := ⟨[], ⟨2, 2, 2⟩, ⟨0, 0, 0⟩, []⟩

/-- A concrete authored camera at world position (2,1,3) looking toward
-Z (identity orientation), fov 40. -/
def authoredCam213 : GltfCamera := ⟨⟨2, 1, 3⟩, Quat.identity, 40, 0.1, 1000, 1⟩

/-- A concrete asset containing the authored camera above. -/
def gltfWithCam : Gltf := ⟨[authoredCam213], ⟨2, 2, 2⟩, ⟨0, 0, 0⟩, []⟩

/-! ## Theorems -/

/-- Every manual camera edit turns the orbit controls off. -/
theorem manualEdit_disables (s : SceneState) (e : SceneEvent) (he : isManualEdit e = true) :
    (sceneStep s e).orbitControlsEnabled = false := by
  cases e <;>
    simp_all [isManualEdit, sceneStep, handlePositionChange, handleCameraRotation,
      handleTargetChange]

/-- While the orbit controls are off, an orbit-drag change event is a
complete no-op on the component state. -/
theorem orbitChange_noop_when_disabled (s : SceneState) (e : SceneEvent)
    (hs : s.orbitControlsEnabled = false) (he : isOrbitChange e = true) :
    sceneStep s e = s := by
  cases e <;> simp_all [isOrbitChange, sceneStep, handleChange]

/-- C1 (Authority exclusivity): after any manual camera edit
(`handlePositionChange` / `handleCameraRotation` / `handleTargetChange`)
switches authority away from Orbit by disabling the orbit controls,
every subsequent sequence of orbit-drag change events leaves the stored
camera pose (position, target, rotation and all other fields)
unchanged — until a `toggleOrbitControls` or `resetCameraToViewTarget`
event (which are not orbit-change events) restores Orbit authority. -/
theorem manual_edit_blocks_orbit_drags (s : SceneState) (e : SceneEvent)
    (evs : List SceneEvent) (he : isManualEdit e = true)
    (hevs : ∀ x ∈ evs, isOrbitChange x = true) :
    (evs.foldl sceneStep (sceneStep s e)).camera = (sceneStep s e).camera := by
  have hdis : (sceneStep s e).orbitControlsEnabled = false := manualEdit_disables s e he
  suffices h : ∀ (l : List SceneEvent) (t : SceneState), t.orbitControlsEnabled = false →
      (∀ x ∈ l, isOrbitChange x = true) → l.foldl sceneStep t = t by
    rw [h evs _ hdis hevs]
  intro l
  induction l with
  | nil => intro t _ _; rfl
  | cons x xs ih =>
    intro t ht hl
    have hx := hl x (List.mem_cons_self x xs)
    rw [List.foldl_cons, orbitChange_noop_when_disabled t x ht hx]
    exact ih t ht fun y hy => hl y (List.mem_cons_of_mem x hy)

/-- Witness for C1: a concrete manual position edit followed by a
concrete orbit-drag change event leaves the stored pose unchanged. -/
theorem manual_edit_blocks_orbit_drags_witness :
    ([SceneEvent.orbitChange ⟨1, 1, 1⟩ ⟨0.5, 0.5, 0.5⟩ ⟨0, 0, 0⟩].foldl sceneStep
        (sceneStep initialSceneState (SceneEvent.manualPosition ⟨1, 2, 3⟩))).camera =
      (sceneStep initialSceneState (SceneEvent.manualPosition ⟨1, 2, 3⟩)).camera :=
  manual_edit_blocks_orbit_drags initialSceneState _ _ rfl (by
    intro x hx
    simp only [List.mem_singleton] at hx
    subst hx
    rfl)

/-- C8 (Manual-edit frame effect): each of the three manual camera
edits switches authority to Manual (orbit controls disabled, which the
controls effect turns into pan, zoom and rotate all off) and writes
only its targeted field of the stored pose — position and rotation
after the 2-decimal rounding, target verbatim — leaving every other
field unchanged; in particular a rotation edit does not touch the
target and a target edit does not touch the rotation. -/
theorem manual_edits_write_only_their_field (s : SceneState) (v : Vec3) (k : Bool) :
    ((handlePositionChange v s).orbitControlsEnabled = false ∧
      (handlePositionChange v s).camera.position = round2Vec v ∧
      (handlePositionChange v s).camera.rotation = s.camera.rotation ∧
      (handlePositionChange v s).camera.target = s.camera.target ∧
      (handlePositionChange v s).camera.fov = s.camera.fov ∧
      (handlePositionChange v s).camera.near = s.camera.near ∧
      (handlePositionChange v s).camera.far = s.camera.far ∧
      (handlePositionChange v s).camera.zoom = s.camera.zoom) ∧
    ((handleCameraRotation v s).orbitControlsEnabled = false ∧
      (handleCameraRotation v s).camera.rotation = round2Vec v ∧
      (handleCameraRotation v s).camera.position = s.camera.position ∧
      (handleCameraRotation v s).camera.target = s.camera.target ∧
      (handleCameraRotation v s).camera.fov = s.camera.fov ∧
      (handleCameraRotation v s).camera.near = s.camera.near ∧
      (handleCameraRotation v s).camera.far = s.camera.far ∧
      (handleCameraRotation v s).camera.zoom = s.camera.zoom) ∧
    ((handleTargetChange v s).orbitControlsEnabled = false ∧
      (handleTargetChange v s).camera.target = v ∧
      (handleTargetChange v s).camera.position = s.camera.position ∧
      (handleTargetChange v s).camera.rotation = s.camera.rotation ∧
      (handleTargetChange v s).camera.fov = s.camera.fov ∧
      (handleTargetChange v s).camera.near = s.camera.near ∧
      (handleTargetChange v s).camera.far = s.camera.far ∧
      (handleTargetChange v s).camera.zoom = s.camera.zoom) ∧
    applyControlsEffect false k = ⟨false, false, false⟩ := by
  simp [handlePositionChange, handleCameraRotation, handleTargetChange, updateCamera,
    processUpdates, applyControlsEffect]

/-- Counterexample for C4: the orbit-change handler writes the rotation
in degrees into the stored pose without the 2-decimal rounding.  At a
live camera rotation of `π/36000` radians (= 0.005°) the stored value
is 0.005, which is not equal to its own 2-decimal rounding (0.01). -/
theorem orbit_change_rotation_unrounded :
    (handleChange ⟨0, 0, 0⟩ ⟨Real.pi / 36000, 0, 0⟩ ⟨0, 0, 0⟩
        initialSceneState).camera.rotation.x ≠
      round2 ((handleChange ⟨0, 0, 0⟩ ⟨Real.pi / 36000, 0, 0⟩ ⟨0, 0, 0⟩
        initialSceneState).camera.rotation.x) := by
  have h1 : (handleChange ⟨0, 0, 0⟩ ⟨Real.pi / 36000, 0, 0⟩ ⟨0, 0, 0⟩
      initialSceneState).camera.rotation.x = radToDeg (Real.pi / 36000) := by
    simp [handleChange, initialSceneState]
  have h2 : radToDeg (Real.pi / 36000) = 1 / 200 := by
    unfold radToDeg
    have hπ : Real.pi ≠ 0 := Real.pi_ne_zero
    field_simp
    ring
  have h3 : round2 ((1 : ℝ) / 200) = 1 / 100 := by
    unfold round2
    have h4 : (1 : ℝ) / 200 * 100 = 1 / 2 := by norm_num
    rw [h4, round_eq]
    norm_num
  rw [h1, h2, h3]
  norm_num

/-- C4 as amended: rotation writes that pass through `updateCamera`
(the manual rotation edit and the camera reset) are rounded to
2 decimal places before being stored, but the orbit-change handler
stores the radians-to-degrees conversion verbatim, with no rounding. -/
theorem rotation_rounding_policy (c : CameraState) (r : Vec3) (s : SceneState)
    (p rot t : Vec3) (hs : s.orbitControlsEnabled = true) :
    (updateCamera ⟨none, some r, none⟩ c).rotation = round2Vec r ∧
    (handleChange p rot t s).camera.rotation =
      ⟨radToDeg rot.x, radToDeg rot.y, radToDeg rot.z⟩ := by
  constructor
  · simp [updateCamera, processUpdates]
  · simp [handleChange, hs]

/-- Witness for the amended C4 at concrete inputs. -/
theorem rotation_rounding_policy_witness :
    (updateCamera ⟨none, some ⟨0.005, 0, 0⟩, none⟩ initialCamera).rotation =
      round2Vec ⟨0.005, 0, 0⟩ ∧
    (handleChange ⟨1, 1, 1⟩ ⟨0.5, 0, 0⟩ ⟨0, 0, 0⟩ initialSceneState).camera.rotation =
      ⟨radToDeg 0.5, radToDeg 0, radToDeg 0⟩ :=
  rotation_rounding_policy initialCamera ⟨0.005, 0, 0⟩ initialSceneState
    ⟨1, 1, 1⟩ ⟨0.5, 0, 0⟩ ⟨0, 0, 0⟩ rfl

/-- Counterexample for C3: on a degenerate bounding volume
(`maxDim = 0`) the framing computation yields camera distance 0 — the
code has no strictly positive fallback. -/
theorem degenerate_framing_not_positive : ¬ (0 < frameDistance ⟨0, 0, 0⟩) := by
  have h : frameDistance ⟨0, 0, 0⟩ = 0 := by simp [frameDistance]
  rw [h]
  exact lt_irrefl 0

/-- C3 as amended: for a bounding volume with `maxDim = 0` the framing
computation yields camera distance exactly 0 (a well-defined real
number, not NaN); there is no positive fallback in the code. -/
theorem degenerate_framing_distance (size : Vec3)
    (h : max (max size.x size.y) size.z = 0) : frameDistance size = 0 := by
  simp [frameDistance, h]

/-- Witness for the amended C3: the all-zero bounding volume. -/
theorem degenerate_framing_distance_witness : frameDistance ⟨0, 0, 0⟩ = 0 :=
  degenerate_framing_distance ⟨0, 0, 0⟩ (by simp)

/-- C10 (getDuration total fallback): the imperative handle's
`getDuration` returns 0 whenever no animation is selected or the
selected clip's action does not resolve, and otherwise returns the
active clip's duration; being a total function into ℝ it never throws
and never produces an undefined value. -/
theorem getDuration_fallback (cur : String) (acts : ActMap) :
    (cur = "" → getDuration cur acts = 0) ∧
    (acts cur = none → getDuration cur acts = 0) ∧
    (∀ a, cur ≠ "" → acts cur = some a → getDuration cur acts = a.clip.duration) := by
  refine ⟨?_, ?_, ?_⟩
  · intro h; simp [getDuration, h]
  · intro h
    unfold getDuration
    by_cases hc : cur = ""
    · simp [hc]
    · simp [hc, h]
  · intro a h1 h2
    simp [getDuration, h1, h2]

/-- Witness for C10 at concrete inputs: empty selection, an unresolved
name, and a resolving name. -/
theorem getDuration_fallback_witness :
    getDuration "" actsAB = 0 ∧ getDuration "C" actsAB = 0 ∧
    getDuration "A" actsAB = clipA.duration :=
  ⟨(getDuration_fallback "" actsAB).1 rfl,
   (getDuration_fallback "C" actsAB).2.1 (by simp [actsAB]),
   (getDuration_fallback "A" actsAB).2.2 actA (by simp) (by simp [actsAB])⟩

/-- Counterexample for C5: selecting clip B while clip A is playing
leaves A's action completely untouched — still running with nonzero
time — so A is neither stopped nor reset before B starts, and the two
actions run concurrently. -/
theorem clip_switch_leaves_previous_running :
    (selectAnimation "B" animStA).actions "A" = some actA ∧
    actA.running = true ∧ actA.time = 1.5 ∧ (1.5 : ℝ) ≠ 0 := by
  refine ⟨?_, rfl, rfl, by norm_num⟩
  simp [selectAnimation, animStA, animEffect, actsAB, setAction]

/-- C5 as amended: selecting a non-empty clip B sets the current
animation to B and the status to `'playing'`, and unpauses and plays
B's action if it resolves — but it does not stop or reset the
previously active clip's action: every other entry of the action
dictionary is left exactly as it was, so the previous clip's action may
keep running concurrently. -/
theorem select_clip_only_starts_new (st : AnimState) (bname : String) (hb : bname ≠ "") :
    (∀ n, n ≠ bname → (selectAnimation bname st).actions n = st.actions n) ∧
    (∀ a, st.actions bname = some a →
      (selectAnimation bname st).actions bname =
        some (Action.play { a with paused := false })) ∧
    (selectAnimation bname st).currentAnimation = bname ∧
    (selectAnimation bname st).isPlaying = .strPlaying := by
  refine ⟨?_, ?_, rfl, by simp [selectAnimation, hb]⟩
  · intro n hn
    simp only [selectAnimation, if_neg hb, animEffect]
    cases h : st.actions bname with
    | none => simp [h, if_neg hb]
    | some a => simp [h, if_neg hb, setAction, hn]
  · intro a h
    simp [selectAnimation, animEffect, if_neg hb, h, setAction]

/-- Witness for the amended C5 at a concrete switch from A to B. -/
theorem select_clip_only_starts_new_witness :
    (selectAnimation "B" animStA).actions "A" = animStA.actions "A" ∧
    (selectAnimation "B" animStA).actions "B" =
      some (Action.play { actB with paused := false }) ∧
    (selectAnimation "B" animStA).currentAnimation = "B" ∧
    (selectAnimation "B" animStA).isPlaying = .strPlaying := by
  obtain ⟨h1, h2, h3, h4⟩ := select_clip_only_starts_new animStA "B" (by decide)
  exact ⟨h1 "A" (by decide), h2 actB (by simp [animStA, actsAB]), h3, h4⟩

/-- C6 (Scrub postcondition): for an in-range progress value and a
selected clip whose action resolves, `handleProgress` replaces that
action by one whose time is exactly `progress * clipDuration`, and the
paused flag is unchanged — in particular an action paused before the
scrub is paused again after the mandated momentary
unpause-then-repause. -/
theorem scrub_sets_time_keeps_pause (p : ℝ) (cur : String) (acts : ActMap) (a : Action)
    (hp0 : 0 ≤ p) (hp1 : p ≤ 1) (hcur : cur ≠ "") (ha : acts cur = some a) :
    handleProgress p cur acts cur = some (scrubAction p a) ∧
    (scrubAction p a).time = p * a.clip.duration ∧
    (scrubAction p a).paused = a.paused := by
  refine ⟨?_, ?_, ?_⟩
  · simp [handleProgress, hcur, ha, setAction]
  · unfold scrubAction
    by_cases h : a.paused <;> simp [h, Action.play, mul_comm]
  · unfold scrubAction
    by_cases h : a.paused <;> simp [h, Action.play]

/-- Witness for C6: clip B has duration 4 and `scrub(0.5)` sets its
action's time to `0.5 * 4`, keeping the paused flag. -/
theorem scrub_sets_time_keeps_pause_witness :
    handleProgress (1 / 2) "B" actsAB "B" = some (scrubAction (1 / 2) actB) ∧
    (scrubAction (1 / 2) actB).time = (1 / 2) * actB.clip.duration ∧
    (scrubAction (1 / 2) actB).paused = actB.paused :=
  scrub_sets_time_keeps_pause (1 / 2) "B" actsAB actB (by norm_num) (by norm_num)
    (by decide) (by simp [actsAB])

/-- C7 (Authored-camera precedence): when the asset contains at least
one authored camera node, the extracted scene settings take the
camera's world position, derive the target by adding the
quaternion-rotated forward vector `(0,0,-1)` to it, and copy fov, near,
far and zoom from the camera, bypassing the bounding-volume framing; in
the concrete scenario of a camera at (2,1,3) looking toward -Z with fov
40 this gives position (2,1,3), target (2,1,2) and fov 40. -/
theorem authored_camera_precedence (g : Gltf) (c : GltfCamera) (rest : List GltfCamera)
    (hg : g.cameras = c :: rest) :
    (computeSceneSettings g).position = c.worldPosition ∧
    (computeSceneSettings g).target =
      vadd c.worldPosition (applyQuaternion c.worldQuaternion ⟨0, 0, -1⟩) ∧
    (computeSceneSettings g).fov = c.fov ∧
    (computeSceneSettings g).near = some c.near ∧
    (computeSceneSettings g).far = some c.far ∧
    (computeSceneSettings g).zoom = some c.zoom ∧
    (computeSceneSettings gltfWithCam).position.x = 2 ∧
    (computeSceneSettings gltfWithCam).position.y = 1 ∧
    (computeSceneSettings gltfWithCam).position.z = 3 ∧
    (computeSceneSettings gltfWithCam).target.x = 2 ∧
    (computeSceneSettings gltfWithCam).target.y = 1 ∧
    (computeSceneSettings gltfWithCam).target.z = 2 ∧
    (computeSceneSettings gltfWithCam).fov = 40 := by
  refine ⟨?_, ?_, ?_, ?_, ?_, ?_, ?_, ?_, ?_, ?_, ?_, ?_, ?_⟩ <;>
    simp [computeSceneSettings, hg, authoredCamera, gltfWithCam, authoredCam213,
      applyQuaternion, Quat.identity, vadd] <;> norm_num

/-- Witness for C7: the concrete asset `gltfWithCam`. -/
theorem authored_camera_precedence_witness :
    (computeSceneSettings gltfWithCam).position = authoredCam213.worldPosition ∧
    (computeSceneSettings gltfWithCam).fov = authoredCam213.fov :=
  ⟨(authored_camera_precedence gltfWithCam authoredCam213 [] rfl).1,
   (authored_camera_precedence gltfWithCam authoredCam213 [] rfl).2.2.1⟩

/-- Counterexample for C9: after the first asset (clip A) has seeded
the playback state, loading a second asset (clip B) does not reseed —
the current animation remains "A", not the new asset's first clip "B" —
and the seeding writes the raw boolean `true` into the status, which is
not the `'playing'` value. -/
theorem seeding_not_repeated :
    (seedAnimations [clipB]
        (resetOnNewModelUrl (seedAnimations [clipA] modelSt0))).currentAnimation = "A" ∧
    ("A" : String) ≠ "B" ∧
    (seedAnimations [clipA] modelSt0).isPlaying = JsPlayFlag.boolTrue ∧
    JsPlayFlag.boolTrue ≠ JsPlayFlag.strPlaying := by
  refine ⟨?_, by decide, ?_, by decide⟩ <;>
    simp [seedAnimations, resetOnNewModelUrl, modelSt0, firstAnimationName, clipA, clipB]

/-- C9 as amended: playback is seeded only for the first asset whose
clips are discovered — when `isInitialized` is still false, the first
clip's name becomes the current animation, the status field receives
the raw boolean `true` (not the `'playing'` string), and the component
is marked initialized; since a change of model URL never clears
`isInitialized`, seeding does not recur for subsequently loaded
assets. -/
theorem seeding_once_only (anims : List Clip) (st : ModelState) (c : Clip)
    (rest : List Clip) (h1 : anims = c :: rest) (h2 : st.isInitialized = false) :
    (seedAnimations anims st).currentAnimation = firstAnimationName anims ∧
    (seedAnimations anims st).isPlaying = JsPlayFlag.boolTrue ∧
    (seedAnimations anims st).isInitialized = true ∧
    (resetOnNewModelUrl (seedAnimations anims st)).isInitialized = true ∧
    (∀ (st2 : ModelState) (anims2 : List Clip), st2.isInitialized = true →
      seedAnimations anims2 st2 = st2) := by
  subst h1
  refine ⟨?_, ?_, ?_, ?_, ?_⟩
  · simp [seedAnimations, h2]
  · simp [seedAnimations, h2]
  · simp [seedAnimations, h2]
  · simp [seedAnimations, resetOnNewModelUrl, h2]
  · intro st2 anims2 hst2
    simp [seedAnimations, hst2]

/-- Witness for the amended C9: the first asset seeds, and a second
asset after a URL change leaves the state untouched. -/
theorem seeding_once_only_witness :
    (seedAnimations [clipA] modelSt0).currentAnimation = firstAnimationName [clipA] ∧
    (seedAnimations [clipA] modelSt0).isPlaying = JsPlayFlag.boolTrue ∧
    (seedAnimations [clipA] modelSt0).isInitialized = true ∧
    seedAnimations [clipB] (resetOnNewModelUrl (seedAnimations [clipA] modelSt0)) =
      resetOnNewModelUrl (seedAnimations [clipA] modelSt0) := by
  obtain ⟨h1, h2, h3, h4, h5⟩ := seeding_once_only [clipA] modelSt0 clipA [] rfl rfl
  exact ⟨h1, h2, h3, h5 _ [clipB] h4⟩

/-- Rational bounds on `tan 25°`, obtained from the Taylor bounds on
sine and cosine and the decimal bounds on π. -/
theorem tan_25deg_bounds :
    0.4638 < Real.tan (25 * Real.pi / 180) ∧ Real.tan (25 * Real.pi / 180) < 0.4701 := by
  set x := 25 * Real.pi / 180 with hxdef
  have hπl : 3.141592 < Real.pi := Real.pi_gt_d6
  have hπu : Real.pi < 3.141593 := Real.pi_lt_d6
  have hxl : (0.43633 : ℝ) < x := by rw [hxdef]; linarith
  have hxu : x < 0.43634 := by rw [hxdef]; linarith
  have hxp : (0 : ℝ) < x := by linarith
  have hxabs : |x| ≤ 1 := by rw [abs_le]; constructor <;> linarith
  have hsin := Real.sin_bound hxabs
  have hcos := Real.cos_bound hxabs
  rw [abs_le, abs_of_pos hxp] at hsin hcos
  have hxx2l : (0.43633 : ℝ) * 0.43633 < x * x :=
    mul_lt_mul'' hxl hxl (by norm_num) (by norm_num)
  have hxx2u : x * x < 0.43634 * 0.43634 := mul_lt_mul'' hxu hxu hxp.le hxp.le
  have hx2l : (0.1903838 : ℝ) < x ^ 2 := by rw [pow_two]; linarith
  have hx2u : x ^ 2 < 0.1903926 := by rw [pow_two]; linarith
  have hx2p : (0 : ℝ) ≤ x ^ 2 := sq_nonneg x
  have hxx3l : (0.1903838 : ℝ) * 0.43633 < x ^ 2 * x :=
    mul_lt_mul'' hx2l hxl (by norm_num) (by norm_num)
  have hxx3u : x ^ 2 * x < 0.1903926 * 0.43634 := mul_lt_mul'' hx2u hxu hx2p hxp.le
  have hx3l : (0.0830701 : ℝ) < x ^ 3 := by rw [pow_succ]; linarith
  have hx3u : x ^ 3 < 0.0830760 := by rw [pow_succ]; linarith
  have hxx4u : x ^ 2 * x ^ 2 < 0.1903926 * 0.1903926 := mul_lt_mul'' hx2u hx2u hx2p hx2p
  have hx4u : x ^ 4 < 0.0362494 := by
    have h : x ^ 4 = x ^ 2 * x ^ 2 := by ring
    rw [h]; linarith
  have hx4p : (0 : ℝ) ≤ x ^ 4 := by positivity
  have hsl : (0.42059 : ℝ) < Real.sin x := by linarith [hsin.1]
  have hsu : Real.sin x < 0.42439 := by linarith [hsin.2]
  have hcl : (0.90291 : ℝ) < Real.cos x := by linarith [hcos.1]
  have hcu : Real.cos x < 0.90670 := by linarith [hcos.2]
  have hc0 : (0 : ℝ) < Real.cos x := by linarith
  rw [Real.tan_eq_sin_div_cos]
  constructor
  · rw [lt_div_iff₀ hc0]; linarith
  · rw [div_lt_iff₀ hc0]; linarith

/-- Rational bounds on the framing distance of the 2×2×2 bounding
volume. -/
theorem frameDistance_cube_bounds :
    2.5526 < frameDistance ⟨2, 2, 2⟩ ∧ frameDistance ⟨2, 2, 2⟩ < 2.5874 := by
  obtain ⟨htl, htu⟩ := tan_25deg_bounds
  have ht0 : (0 : ℝ) < Real.tan (25 * Real.pi / 180) := by linarith
  have ht0' : Real.tan (25 * Real.pi / 180) ≠ 0 := ne_of_gt ht0
  have harg : (50 * Real.pi) / 360 = 25 * Real.pi / 180 := by ring
  have hd : frameDistance ⟨2, 2, 2⟩ = 1.2 / Real.tan (25 * Real.pi / 180) := by
    show max (max (2 : ℝ) 2) 2 / (2 * Real.tan ((50 * Real.pi) / 360)) * 1.2 =
      1.2 / Real.tan (25 * Real.pi / 180)
    rw [max_self, max_self, harg]
    field_simp
    ring
  rw [hd]
  constructor
  · rw [lt_div_iff₀ ht0]; linarith
  · rw [div_lt_iff₀ ht0]; linarith

/-- Rational bounds on `Real.sqrt 2`. -/
theorem sqrt2_bounds : (1.41421 : ℝ) < Real.sqrt 2 ∧ Real.sqrt 2 < 1.41422 := by
  have hs2 := Real.sq_sqrt (show (0 : ℝ) ≤ 2 by norm_num)
  have hs2n := Real.sqrt_nonneg 2
  constructor <;> nlinarith

/-- Rational bounds on `Real.sqrt 3`. -/
theorem sqrt3_bounds : (1.73205 : ℝ) < Real.sqrt 3 ∧ Real.sqrt 3 < 1.73206 := by
  have hs3 := Real.sq_sqrt (show (0 : ℝ) ≤ 3 by norm_num)
  have hs3n := Real.sqrt_nonneg 3
  constructor <;> nlinarith

set_option maxHeartbeats 1000000 in
/-- C2 (FramingCalculator correctness): for a scene with no authored
camera and bounding-box full extents (2sx, 2sy, 2sz), the framing
branch computes `distance = 1.2 * maxDim / (2 * tan 25°)` with `maxDim`
the largest full extent, places the camera at
`distance * (cos 30° · cos 135°, sin 30°, cos 30° · sin 135°)`, aims at
the origin with fov 50; and for the unit cube (half-extents 1,1,1) the
position is within 0.02 of (-1.573, 1.287, 1.573). -/
theorem framing_pose (g : Gltf) (sx sy sz : ℝ) (hcam : g.cameras = [])
    (hbx : g.boundingSize.x = 2 * sx) (hby : g.boundingSize.y = 2 * sy)
    (hbz : g.boundingSize.z = 2 * sz) :
    frameDistance g.boundingSize =
      1.2 * max (max (2 * sx) (2 * sy)) (2 * sz) / (2 * Real.tan (degToRad 25)) ∧
    (computeSceneSettings g).position.x =
      frameDistance g.boundingSize * Real.cos (degToRad 30) * Real.cos (degToRad 135) ∧
    (computeSceneSettings g).position.y =
      frameDistance g.boundingSize * Real.sin (degToRad 30) ∧
    (computeSceneSettings g).position.z =
      frameDistance g.boundingSize * Real.cos (degToRad 30) * Real.sin (degToRad 135) ∧
    (computeSceneSettings g).target.x = 0 ∧
    (computeSceneSettings g).target.y = 0 ∧
    (computeSceneSettings g).target.z = 0 ∧
    (computeSceneSettings g).fov = 50 ∧
    (sx = 1 → sy = 1 → sz = 1 →
      |(computeSceneSettings g).position.x + 1.573| < 0.02 ∧
      |(computeSceneSettings g).position.y - 1.287| < 0.02 ∧
      |(computeSceneSettings g).position.z - 1.573| < 0.02) := by
  have hset : computeSceneSettings g = frameCamera g.boundingSize := by
    simp [computeSceneSettings, hcam]
  have harg25 : degToRad 25 = (50 * Real.pi) / 360 := by unfold degToRad; ring
  have harg30 : degToRad 30 = Real.pi / 6 := by unfold degToRad; ring
  have harg135 : degToRad 135 = (Real.pi * 3) / 4 := by unfold degToRad; ring
  have hdist : frameDistance g.boundingSize =
      1.2 * max (max (2 * sx) (2 * sy)) (2 * sz) / (2 * Real.tan (degToRad 25)) := by
    unfold frameDistance
    rw [hbx, hby, hbz, harg25]
    ring
  have hposx : (computeSceneSettings g).position.x =
      frameDistance g.boundingSize * Real.cos (degToRad 30) * Real.cos (degToRad 135) := by
    rw [hset, harg30, harg135]
    simp only [frameCamera]
  have hposy : (computeSceneSettings g).position.y =
      frameDistance g.boundingSize * Real.sin (degToRad 30) := by
    rw [hset, harg30]
    simp only [frameCamera]
  have hposz : (computeSceneSettings g).position.z =
      frameDistance g.boundingSize * Real.cos (degToRad 30) * Real.sin (degToRad 135) := by
    rw [hset, harg30, harg135]
    simp only [frameCamera]
  refine ⟨hdist, hposx, hposy, hposz, by rw [hset]; simp [frameCamera],
    by rw [hset]; simp [frameCamera], by rw [hset]; simp [frameCamera],
    by rw [hset]; simp [frameCamera], ?_⟩
  intro h1 h2 h3
  subst h1; subst h2; subst h3
  have hbv : g.boundingSize = ⟨2, 2, 2⟩ := by
    cases hb : g.boundingSize with
    | mk bx bb bz =>
      rw [hb] at hbx hby hbz
      simp only at hbx hby hbz
      rw [hbx, hby, hbz]
      norm_num
  rw [hbv] at hposx hposy hposz
  obtain ⟨hdl, hdu⟩ := frameDistance_cube_bounds
  have hdp : (0 : ℝ) ≤ frameDistance ⟨2, 2, 2⟩ := by linarith
  have hcos30 : Real.cos (degToRad 30) = Real.sqrt 3 / 2 := by
    rw [harg30]; exact Real.cos_pi_div_six
  have hsin30 : Real.sin (degToRad 30) = 1 / 2 := by
    rw [harg30]; exact Real.sin_pi_div_six
  have hsplit : (Real.pi * 3) / 4 = Real.pi - Real.pi / 4 := by ring
  have hcos135 : Real.cos (degToRad 135) = -(Real.sqrt 2 / 2) := by
    rw [harg135, hsplit, Real.cos_pi_sub, Real.cos_pi_div_four]
  have hsin135 : Real.sin (degToRad 135) = Real.sqrt 2 / 2 := by
    rw [harg135, hsplit, Real.sin_pi_sub, Real.sin_pi_div_four]
  have hs2n := Real.sqrt_nonneg 2
  have hs3n := Real.sqrt_nonneg 3
  obtain ⟨h2l, h2u⟩ := sqrt2_bounds
  obtain ⟨h3l, h3u⟩ := sqrt3_bounds
  have hul' : (2.5526 : ℝ) * 1.73205 < frameDistance ⟨2, 2, 2⟩ * Real.sqrt 3 :=
    mul_lt_mul'' hdl h3l (by norm_num) (by norm_num)
  have huu' : frameDistance ⟨2, 2, 2⟩ * Real.sqrt 3 < 2.5874 * 1.73206 :=
    mul_lt_mul'' hdu h3u hdp hs3n
  have humn : (0 : ℝ) ≤ frameDistance ⟨2, 2, 2⟩ * Real.sqrt 3 := by positivity
  have hvl' : (4.4212 : ℝ) * 1.41421 < frameDistance ⟨2, 2, 2⟩ * Real.sqrt 3 * Real.sqrt 2 :=
    mul_lt_mul'' (by linarith) h2l (by norm_num) (by norm_num)
  have hvu' : frameDistance ⟨2, 2, 2⟩ * Real.sqrt 3 * Real.sqrt 2 < 4.4816 * 1.41422 :=
    mul_lt_mul'' (by linarith) h2u humn hs2n
  refine ⟨?_, ?_, ?_⟩
  · rw [hposx, hcos30, hcos135]
    have hq : frameDistance ⟨2, 2, 2⟩ * (Real.sqrt 3 / 2) * -(Real.sqrt 2 / 2) =
        -(frameDistance ⟨2, 2, 2⟩ * Real.sqrt 3 * Real.sqrt 2 / 4) := by ring
    rw [hq, abs_lt]
    constructor <;> linarith
  · rw [hposy, hsin30, abs_lt]
    constructor <;> linarith
  · rw [hposz, hcos30, hsin135]
    have hq : frameDistance ⟨2, 2, 2⟩ * (Real.sqrt 3 / 2) * (Real.sqrt 2 / 2) =
        frameDistance ⟨2, 2, 2⟩ * Real.sqrt 3 * Real.sqrt 2 / 4 := by ring
    rw [hq, abs_lt]
    constructor <;> linarith

/-- Witness for C2: the concrete no-camera unit-cube asset. -/
theorem framing_pose_witness :
    (computeSceneSettings gltfUnitCube).target.x = 0 ∧
    (computeSceneSettings gltfUnitCube).fov = 50 ∧
    |(computeSceneSettings gltfUnitCube).position.y - 1.287| < 0.02 := by
  obtain ⟨-, -, -, -, h5, -, -, h8, h9⟩ :=
    framing_pose gltfUnitCube 1 1 1 rfl (by norm_num [gltfUnitCube])
      (by norm_num [gltfUnitCube]) (by norm_num [gltfUnitCube])
  exact ⟨h5, h8, (h9 rfl rfl rfl).2.1⟩


end

end GltfViewer
